import Mathlib

/-!
Shallow embedding of the booking / rating / OTP core of the
`annapoorneshwari_tyre_works` Flask application (src/app.py, src/db.py,
src/otp_utils.py), together with theorems settling the frozen claims about it.

Modelling conventions:
* MongoDB collections are Lean lists; `find_one` is `List.find?`,
  `update_one` updates the first matching document (`updateFirst`).
* A case-insensitive anchored regex match (`{"$regex": "^x$", "$options": "i"}`)
  is equality of the `String.toLower` images (`eqIc`).
* Timestamps (`time.time()`, `datetime.now()`) are injected `Nat` arguments,
  in seconds.  Python's `a - b > 300` on floats coincides with the `Nat`
  version for the comparisons used here (truncated subtraction makes a
  "future" stored time compare small, exactly as a negative float does).
* Monetary amounts (Python floats used only for `+` and `sum`) are `Int`.
* The SHA-256 used by `OTPManager.hash_otp` is an abstract parameter
  `hash : String → String`; the code only ever compares hash values.
* Flask session dictionaries become records of `Option` fields (a popped key
  is `none`); the attempt counter, read with `session.get(key, 0)`, is a
  plain `Nat` where the popped state is `0`.
-/

namespace TyreWorks

/-- ASCII lower-casing of one character (the service names, user names and
statuses this system compares are ASCII). -/
def lowerChar (c : Char) : Char :=
  if 65 ≤ c.toNat ∧ c.toNat ≤ 90 then Char.ofNat (c.toNat + 32) else c

/-- Case-insensitive string equality: MongoDB's anchored `^…$` regex with the
`"i"` option, and Python's `a.lower() == b.lower()`. -/
def eqIc (a b : String) : Bool :=
  a.data.map lowerChar == b.data.map lowerChar

/-- One decimal digit of Python's `int(...)`. -/
def digitVal (c : Char) : Option Nat :=
  if 48 ≤ c.toNat ∧ c.toNat ≤ 57 then some (c.toNat - 48) else none

def parseNatAux : List Char → Option Nat → Option Nat
  | [], acc => acc
  | c :: cs, acc =>
    match digitVal c, acc with
    | some d, some n => parseNatAux cs (some (10 * n + d))
    | some d, none => parseNatAux cs (some d)
    | none, _ => none

/-- Python's `int(str)` on a decimal literal with an optional sign; any
non-digit raises `ValueError` (here: `none`). -/
def parse_int (s : String) : Option Int :=
  match s.data with
  | [] => none
  | '-' :: rest => (parseNatAux rest none).map (fun n => -(n : Int))
  | '+' :: rest => (parseNatAux rest none).map (fun n => (n : Int))
  | cs => (parseNatAux cs none).map (fun n => (n : Int))

/-- Model of `update_one`: apply `f` to the first element satisfying `p`,
leave the rest of the collection unchanged. -/
def updateFirst (p : α → Bool) (f : α → α) : List α → List α
  | [] => []
  | x :: xs => if p x then f x :: xs else x :: updateFirst p f xs

/-! ## Canonical service catalog (src/db.py) -/

/-- A document of the `services` collection. -/
structure Service where
  name : String
  price : Int
deriving DecidableEq, Repr

/-- Model of `db.get_service_by_name`: case-insensitive lookup with an exact-match
fallback. -/
def get_service_by_name (catalog : List Service) (service_name : String) :
    Option Service :=
  match catalog.find? (fun s => eqIc s.name service_name) with
  | some s => some s
  | none => catalog.find? (fun s => s.name == service_name)

/-- The normalization step of `db.insert_rating`: use the canonical catalog
name when the catalog resolves the submitted name, otherwise keep it as is. -/
def canonical_service_name (catalog : List Service) (service_name : String) :
    String :=
  match get_service_by_name catalog service_name with
  | some s => s.name
  | none => service_name

/-! ## Bookings (src/db.py, src/app.py) -/

/-- One entry of a booking's `services` list: the legacy bare-string shape or
the `{name, amount}` dict shape. -/
inductive ServiceEntry where
  | nameOnly (name : String)
  | withAmount (name : String) (amount : Int)
deriving DecidableEq, Repr

/-- Value of `service.get('name', '')` for the dict shape, the string itself for the
legacy shape — the value every membership check in the source compares. -/
def entryName : ServiceEntry → String
  | .nameOnly n => n
  | .withAmount n _ => n

/-- A document of the `prebookings` collection.  `oid` stands for the Mongo
`_id`; `booking_id` is the short public token. -/
structure Booking where
  oid : Nat
  booking_id : String
  email : String
  name : String
  contact : String
  area : String
  district : String
  taluk : String
  preferred_date : String
  time : String
  services : List ServiceEntry
  status : String
  total_service_amount : Int
  total_amount : Int
  service_amount : Option Int
  created_at : Nat
  updated_at : Nat
  completed_at : Option Nat
  amount_updated_at : Option Nat
deriving DecidableEq, Repr

/-- A document of the `payments` collection (only the fields touched by the
operations modelled here). -/
structure Payment where
  booking_id : String
  service_amount : Option Int
  total_amount : Option Int
  updated_at : Option Nat
deriving DecidableEq, Repr

/-- Model of `db.update_prebooking_status`: unconditional `update_one` on `booking_id`
setting `status` and `updated_at` — no check of the current status. -/
def update_prebooking_status (dbB : List Booking) (booking_id status : String)
    (now : Nat) : List Booking :=
  updateFirst (fun b => b.booking_id == booking_id)
    (fun b => { b with status := status, updated_at := now }) dbB

inductive CompleteResult where
  | adminRequired
  | notFound
  | completed (reportedTotal : Int)
deriving DecidableEq, Repr

/-- Model of `app.complete_booking` (POST /admin/complete-booking/<id>): looks the
booking up by `_id`, then unconditionally sets `status`, `completed_at` and
`updated_at`; the completion notification reports the `total_amount` read
before the update.  There is no check of the current status. -/
def complete_booking (adminLoggedIn : Bool) (dbB : List Booking) (oid now : Nat) :
    CompleteResult × List Booking :=
  if !adminLoggedIn then (.adminRequired, dbB)
  else
    match dbB.find? (fun b => b.oid == oid) with
    | none => (.notFound, dbB)
    | some booking =>
      let total := booking.total_amount
      let dbB' := updateFirst (fun b => b.oid == oid)
        (fun b => { b with status := "completed", completed_at := some now,
                           updated_at := now }) dbB
      (.completed total, dbB')

inductive CancelResult where
  | notFound
  | notPending
  | cancelled
deriving DecidableEq, Repr

/-- Model of `app.cancel_booking` (POST /user/cancel-booking/<id>): ownership is part
of the lookup (`booking_id`, exact `email`, case-insensitive `name`), so a
booking owned by someone else is indistinguishable from a missing one; only a
`pending` booking is updated. -/
def cancel_booking (dbB : List Booking) (userEmail userName bookingId : String)
    (now : Nat) : CancelResult × List Booking :=
  match dbB.find? (fun b => b.booking_id == bookingId && b.email == userEmail
      && eqIc b.name userName) with
  | none => (.notFound, dbB)
  | some booking =>
    if booking.status != "pending" then (.notPending, dbB)
    else
      (.cancelled,
        updateFirst (fun b => b.booking_id == bookingId)
          (fun b => { b with status := "cancelled", updated_at := now }) dbB)

inductive RejectResult where
  | unauthorized
  | notFound
  | rejected
deriving DecidableEq, Repr

/-- Model of `app.reject_booking` (POST /api/prebook/<id>/reject): after a bare
existence lookup it calls `update_prebooking_status`, which overwrites the
status unconditionally. -/
def reject_booking (adminLoggedIn : Bool) (dbB : List Booking)
    (bookingId : String) (now : Nat) : RejectResult × List Booking :=
  if !adminLoggedIn then (.unauthorized, dbB)
  else
    match dbB.find? (fun b => b.booking_id == bookingId) with
    | none => (.notFound, dbB)
    | some _ => (.rejected, update_prebooking_status dbB bookingId "rejected" now)

/-- Model of `db.update_booking_service_amounts` (per-service amounts, plural):
recomputes `total_service_amount` as the sum of the supplied amounts and
`total_amount` equal to it ("Remove built-in booking fee" in the source);
reports back the new totals on success (`modified_count > 0`, i.e. the
document actually changed). -/
def update_booking_service_amounts (dbB : List Booking) (oid : Nat)
    (services_data : List (String × Int)) (now : Nat) :
    (Bool × Option (Int × Int)) × List Booking :=
  let total_service_amount := (services_data.map (fun s => s.2)).sum
  let total_amount := total_service_amount
  let f := fun (b : Booking) =>
    { b with services := services_data.map (fun s => ServiceEntry.withAmount s.1 s.2),
             total_service_amount := total_service_amount,
             total_amount := total_amount,
             amount_updated_at := some now }
  match dbB.find? (fun b => b.oid == oid) with
  | none => ((false, none), dbB)
  | some b =>
    ((if f b = b then (false, none)
      else (true, some (total_service_amount, total_amount))),
     updateFirst (fun x => x.oid == oid) f dbB)

/-- Model of `db.update_booking_service_amount` (legacy single amount): sets
`total_amount := amount + 20` (a flat ₹20 fee), stores the amount in the
separate `service_amount` field, leaves `total_service_amount` untouched, and
mirrors the amounts into the booking's payment document on success. -/
def update_booking_service_amount (dbB : List Booking) (payments : List Payment)
    (oid : Nat) (serviceAmount : Int) (now : Nat) :
    Bool × List Booking × List Payment :=
  let total_amount := serviceAmount + 20
  let f := fun (b : Booking) =>
    { b with service_amount := some serviceAmount,
             total_amount := total_amount,
             amount_updated_at := some now }
  match dbB.find? (fun b => b.oid == oid) with
  | none => (false, dbB, payments)
  | some b =>
    ((if f b = b then false else true), updateFirst (fun x => x.oid == oid) f dbB,
      if f b = b then payments
      else
        updateFirst (fun p => p.booking_id == b.booking_id)
          (fun p => { p with service_amount := some serviceAmount,
                             total_amount := some total_amount,
                             updated_at := some now }) payments)

/-! ## Ratings (src/db.py, src/app.py) -/

/-- A document of the `get_ratings` collection. -/
structure Rating where
  booking_id : String
  service_name : String
  rating : Int
  user_name : String
  user_email : String
  comment : Option String
  photo_urls : List String
deriving DecidableEq, Repr

/-- Model of `db.check_user_rating_exists_for_booking`: case-insensitive existence
check for a rating of this (booking, service) pair. -/
def check_user_rating_exists_for_booking (ratings : List Rating)
    (booking_id service_name : String) : Bool :=
  ratings.any (fun r => r.booking_id == booking_id
    && eqIc r.service_name service_name)

/-- The unique index `booking_service_unique` on `(booking_id, service_name)`
created by `db.create_indexes`: the insert is refused (duplicate key) exactly
when a rating with the *same exact* pair is already stored.  MongoDB's default
collation is case-sensitive, so this index does not see "foo" and "FOO" as
duplicates. -/
def ratings_index_insert (ratings : List Rating) (r : Rating) :
    Except String (List Rating) :=
  if ratings.any (fun x => x.booking_id == r.booking_id
      && x.service_name == r.service_name) then
    .error "duplicate key"
  else
    .ok (ratings ++ [r])

/-- Model of `db.insert_rating`: validates the ids, normalizes the service name to its
canonical catalog form, pre-checks (case-insensitively) that no rating exists
for the pair, then inserts through the unique index.  Returns the new
collection and the stored (normalized) rating. -/
def insert_rating (catalog : List Service) (ratings : List Rating) (r : Rating) :
    Except String (List Rating × Rating) :=
  if r.booking_id == "" then .error "Booking ID is required"
  else if r.service_name == "" then .error "Service name is required"
  else
    let r' := { r with service_name := canonical_service_name catalog r.service_name }
    if check_user_rating_exists_for_booking ratings r'.booking_id r'.service_name then
      .error "Rating already exists for this booking and service"
    else
      match ratings_index_insert ratings r' with
      | .ok rs => .ok (rs, r')
      | .error e => .error e

/-- The collection state after a storage insert guarded only by the unique
index: on a duplicate-key error the collection is unchanged. -/
def tryIndexInsert (ratings : List Rating) (r : Rating) : List Rating :=
  match ratings_index_insert ratings r with
  | .ok rs => rs
  | .error _ => ratings

/-- Two racing `insert_rating` calls: both application-level pre-checks read
the same initial `ratings` state (neither sees the other's insert), then the
storage inserts serialize, each one checked only by the unique index — the
situation the spec's concurrency section describes. -/
def insert_rating_race (catalog : List Service) (ratings : List Rating)
    (r1 r2 : Rating) : List Rating :=
  let n1 := { r1 with service_name := canonical_service_name catalog r1.service_name }
  let n2 := { r2 with service_name := canonical_service_name catalog r2.service_name }
  let ok1 := r1.booking_id != "" && r1.service_name != ""
    && !(check_user_rating_exists_for_booking ratings n1.booking_id n1.service_name)
  let ok2 := r2.booking_id != "" && r2.service_name != ""
    && !(check_user_rating_exists_for_booking ratings n2.booking_id n2.service_name)
  let s1 := if ok1 then tryIndexInsert ratings n1 else ratings
  if ok2 then tryIndexInsert s1 n2 else s1

/-- At most one rating per exact `(booking_id, service_name)` pair — the
guarantee the unique index actually provides. -/
def NoDupKeys (l : List Rating) : Prop :=
  l.Pairwise (fun a b => ¬(a.booking_id = b.booking_id
    ∧ a.service_name = b.service_name))

/-- The form data of POST /api/rate-with-images (inputs assumed
whitespace-stripped, as the route strips them on arrival); `photos` is the
list of uploaded file references. -/
structure RateRequest where
  user_name : String
  service_name : String
  booking_id : String
  ratingStr : String
  comment : String
  photos : List String
deriving DecidableEq, Repr

inductive RateOutcome where
  | missingFields
  | invalidRating
  | sessionMismatch
  | noCompletedBooking
  | serviceNotInBooking
  | alreadyRated
  | tooManyPhotos
  | success
  | serverError
deriving DecidableEq, Repr

/-- Model of `app.rate_service_with_images` (POST /api/rate-with-images), after the
login/session checks have passed: field presence, integer rating in [1,5],
session-name match, one lookup for an owned *completed* booking (existence,
ownership and status share a single rejection), an *exact-string* membership
check of the raw submitted name against the booking's service list (both
shapes), the duplicate pre-check, the photo limit, then `insert_rating`. -/
def rate_service_with_images (catalog : List Service) (dbB : List Booking)
    (ratings : List Rating) (sessionEmail sessionName : String)
    (req : RateRequest) : RateOutcome × List Rating :=
  if req.user_name == "" || req.service_name == "" || req.booking_id == ""
      || req.ratingStr == "" then (.missingFields, ratings)
  else
    match parse_int req.ratingStr with
    | none => (.invalidRating, ratings)
    | some rating =>
      if !(1 ≤ rating && rating ≤ 5) then (.invalidRating, ratings)
      else if !(eqIc req.user_name sessionName) then (.sessionMismatch, ratings)
      else
        match dbB.find? (fun b => b.booking_id == req.booking_id
            && b.email == sessionEmail && b.status == "completed") with
        | none => (.noCompletedBooking, ratings)
        | some booking =>
          if !(booking.services.any (fun e => entryName e == req.service_name)) then
            (.serviceNotInBooking, ratings)
          else if check_user_rating_exists_for_booking ratings req.booking_id
              req.service_name then (.alreadyRated, ratings)
          else if req.photos.length > 5 then (.tooManyPhotos, ratings)
          else
            match insert_rating catalog ratings
                { booking_id := req.booking_id, service_name := req.service_name,
                  rating := rating, user_name := req.user_name,
                  user_email := sessionEmail,
                  comment := if req.comment == "" then none else some req.comment,
                  photo_urls := req.photos } with
            | .ok (rs, _) => (.success, rs)
            | .error _ => (.serverError, ratings)

/-! ## OTP manager (src/otp_utils.py)

The manager keys every session entry by the `otp_type` ("login" / "prebook" /
"reset"); the record below models the family of keys for one fixed type and
one identity.  `requests` is the rate-limit key `{type}_requests_{email}`. -/

structure OtpMgrSession where
  otp : Option String
  otpTime : Option Nat
  email : Option String
  lastSent : Option Nat
  attempts : Nat
  requests : List Nat
deriving DecidableEq, Repr

/-- Model of `OTPManager.clear_otp`: pops every session key starting with
`{otp_type}_` — which includes the attempt counter *and* the rate-limit
request history. -/
def clear_otp (_s : OtpMgrSession) : OtpMgrSession :=
  { otp := none, otpTime := none, email := none, lastSent := none,
    attempts := 0, requests := [] }

/-- Model of `OTPManager.check_rate_limit`: keeps the requests of the last hour; at 5
or more it refuses *without touching the session*; otherwise it records the
current request. -/
def check_rate_limit (s : OtpMgrSession) (now : Nat) : Bool × OtpMgrSession :=
  let recent := s.requests.filter (fun t => now - t < 3600)
  if 5 ≤ recent.length then (false, s)
  else (true, { s with requests := recent ++ [now] })

/-- Model of `OTPManager.check_attempt_limit`: `true` iff fewer than 3 attempts were
used. -/
def check_attempt_limit (s : OtpMgrSession) : Bool :=
  !(3 ≤ s.attempts)

def increment_attempts (s : OtpMgrSession) : OtpMgrSession :=
  { s with attempts := s.attempts + 1 }

def reset_attempts (s : OtpMgrSession) : OtpMgrSession :=
  { s with attempts := 0 }

/-- Model of `OTPManager.can_resend_otp`: refuse when less than 60 seconds have
passed since the previous issuance. -/
def can_resend_otp (s : OtpMgrSession) (now : Nat) : Bool :=
  match s.lastSent with
  | none => true
  | some t => !(now - t < 60)

/-- Model of `OTPManager.store_otp`: store only the hash plus the issuance time and
reset the attempt counter. -/
def store_otp (hash : String → String) (s : OtpMgrSession)
    (code email : String) (now : Nat) : OtpMgrSession :=
  reset_attempts
    { s with otp := some (hash code), otpTime := some now,
             email := some email, lastSent := some now }

inductive VerifyResult where
  | verified
  | noOtp
  | expired
  | tooManyAttempts
  | invalid (remaining : Nat)
deriving DecidableEq, Repr

/-- Model of `OTPManager.verify_otp`: missing challenge → `noOtp`; missing, zero
(Python falsy) or stale (strictly more than 300 s old) issuance time →
`expired`, clearing the challenge; attempt limit reached → terminal failure;
otherwise compare hashes — a match clears everything, a mismatch increments
the counter and reports the remaining attempts. -/
def verify_otp (hash : String → String) (s : OtpMgrSession) (entered : String)
    (now : Nat) : VerifyResult × OtpMgrSession :=
  match s.otp with
  | none => (.noOtp, s)
  | some storedHash =>
    match s.otpTime with
    | none => (.expired, clear_otp s)
    | some t =>
      if t == 0 || 300 < now - t then (.expired, clear_otp s)
      else if !(check_attempt_limit s) then (.tooManyAttempts, s)
      else if hash entered == storedHash then
        (.verified, reset_attempts (clear_otp s))
      else
        let s' := increment_attempts s
        (.invalid (3 - s'.attempts), s')

/-! ## Plain session OTP routes (src/app.py)

The routes do not use `OTPManager` at all: they keep a *plaintext* code under
the session keys `otp` / `otp_time` / `otp_verified` (prebooking flow) and
`login_otp` / `login_otp_time` (login flow). -/

structure PlainOtpSession where
  otp : Option String
  otpTime : Option Nat
  otpVerified : Bool
  userEmail : Option String
deriving DecidableEq, Repr

inductive SendOtpResult where
  | emailRequired
  | emailFailed
  | sent (code : String)
deriving DecidableEq, Repr

/-- Model of `app.send_otp` (POST /send-otp): no rate limit, no cooldown — every call
with an email unconditionally generates and stores a fresh code (the session
is written before the email is attempted, so even a failed send leaves the
new code active). -/
def send_otp (s : PlainOtpSession) (email : Option String) (code : String)
    (now : Nat) (emailOk : Bool) : SendOtpResult × PlainOtpSession :=
  match email with
  | none => (.emailRequired, s)
  | some _ =>
    let s' := { s with otp := some code, otpTime := some now, otpVerified := false }
    if !emailOk then (.emailFailed, s') else (.sent code, s')

inductive RouteVerifyResult where
  | notSent
  | expired
  | invalid
  | success
  | serverError
deriving DecidableEq, Repr

/-- Model of `app.verify_otp_route` (POST /verify-otp): plaintext comparison; on
expiry *nothing is cleared*, and on success the stored code is *left in the
session* (only `otp_verified` and `user_email` are written), so the same code
verifies again.  A session holding `otp` without `otp_time` raises a
`KeyError` (500). -/
def verify_otp_route (s : PlainOtpSession) (email entered : String)
    (now : Nat) : RouteVerifyResult × PlainOtpSession :=
  match s.otp with
  | none => (.notSent, s)
  | some code =>
    match s.otpTime with
    | none => (.serverError, s)
    | some t =>
      if 300 < now - t then (.expired, s)
      else if entered == code then
        (.success, { s with otpVerified := true, userEmail := some email })
      else (.invalid, s)

/-! ## Login OTP flow (src/app.py) -/

structure LoginSession where
  loginOtp : Option String
  loginOtpTime : Option Nat
  loginUserId : Option String
  loginUserEmail : Option String
  loginUserName : Option String
  userId : Option String
  userEmail : Option String
  userName : Option String
deriving DecidableEq, Repr

inductive LoginOtpResult where
  | sessionExpired
  | expired
  | invalid
  | success
  | errorCase
deriving DecidableEq, Repr

/-- Model of `app.login_otp` (POST /login-otp): plaintext comparison against
`session['login_otp']`, expiry after strictly more than 300 s, *no attempt
counting of any kind*; a failed attempt changes nothing, a successful one
promotes the staged `login_user_*` keys and pops the challenge.  (The login
route always stages all five keys together; a session missing the staged user
data would raise inside the handler — `errorCase`.) -/
def login_otp (s : LoginSession) (entered : String) (now : Nat) :
    LoginOtpResult × LoginSession :=
  match s.loginOtp, s.loginOtpTime with
  | some code, some t =>
    if 300 < now - t then (.expired, s)
    else if entered == code then
      match s.loginUserId, s.loginUserEmail, s.loginUserName with
      | some uid, some ue, some un =>
        (.success,
          { loginOtp := none, loginOtpTime := none, loginUserId := none,
            loginUserEmail := none, loginUserName := none,
            userId := some uid, userEmail := some ue, userName := some un })
      | _, _, _ => (.errorCase, s)
    else (.invalid, s)
  | _, _ => (.sessionExpired, s)

/-! ## Concrete sample data for witnesses and counterexamples -/

/-- A concrete booking with the given lifecycle-relevant fields and fixed
contact/schedule data. -/
def mkBooking (oid : Nat) (bid email name status : String)
    (services : List ServiceEntry) (tsa ta : Int) : Booking :=
  { oid := oid, booking_id := bid, email := email, name := name,
    contact := "9999999999", area := "Hebri", district := "Udupi",
    taluk := "Karkala", preferred_date := "2026-01-01", time := "10:00",
    services := services, status := status, total_service_amount := tsa,
    total_amount := ta, service_amount := none, created_at := 0,
    updated_at := 0, completed_at := none, amount_updated_at := none }

/-- A concrete rating for the given pair. -/
def mkRating (bid sname : String) (stars : Int) : Rating :=
  { booking_id := bid, service_name := sname, rating := stars,
    user_name := "Alice", user_email := "a@x", comment := none,
    photo_urls := [] }

/-! ## General lemmas about the embedded collection operations -/

/-- Searching after an `update_one` whose modification preserves the match
predicate finds the updated document. -/
theorem find?_updateFirst (p : α → Bool) (f : α → α) (l : List α)
    (hpf : ∀ x, p (f x) = p x) :
    (updateFirst p f l).find? p = (l.find? p).map f := by
  induction l with
  | nil => simp [updateFirst]
  | cons x xs ih =>
    by_cases hx : p x = true
    · simp [updateFirst, hx, List.find?_cons, hpf]
    · simp only [Bool.not_eq_true] at hx
      simp [updateFirst, hx, List.find?_cons, ih]

/-- Documents not matching the `update_one` predicate are untouched. -/
theorem mem_updateFirst_of_not_p (p : α → Bool) (f : α → α) (l : List α)
    (hpf : ∀ x, p (f x) = p x) (y : α) (hy : y ∈ updateFirst p f l)
    (hny : p y = false) : y ∈ l := by
  induction l with
  | nil => simp [updateFirst] at hy
  | cons x xs ih =>
    by_cases hx : p x = true
    · simp only [updateFirst, hx, if_true, List.mem_cons] at hy
      rcases hy with hy | hy
      · exfalso
        rw [hy, hpf] at hny
        rw [hx] at hny
        exact Bool.true_eq_false.mp hny
      · exact List.mem_cons_of_mem _ hy
    · simp only [Bool.not_eq_true] at hx
      simp only [updateFirst, hx, Bool.false_eq_true, if_false, List.mem_cons] at hy
      rcases hy with hy | hy
      · exact hy ▸ List.mem_cons_self _ _
      · exact List.mem_cons_of_mem _ (ih hy)

/-! ## Claim C10 -/

/-- Claim C10: completing a booking is a frame-preserving transition — for
every existing booking, `complete_booking` rewrites only `status`,
`completed_at` and `updated_at` (the `Booking.mk … b.services
b.total_service_amount …` record below pins every other field to its old
value), every other document is untouched, and the completion notification
reports the `total_amount` that was stored before the call. -/
theorem complete_booking_frame (db : List Booking) (oid now : Nat) (b : Booking)
    (hb : db.find? (fun x => x.oid == oid) = some b) :
    (complete_booking true db oid now).1 = CompleteResult.completed b.total_amount
    ∧ (complete_booking true db oid now).2.find? (fun x => x.oid == oid) =
        some { b with status := "completed", completed_at := some now,
                      updated_at := now }
    ∧ ∀ x ∈ (complete_booking true db oid now).2, (x.oid == oid) = false →
        x ∈ db := by
  refine ⟨?_, ?_, ?_⟩
  · simp only [complete_booking, Bool.not_true, Bool.false_eq_true, if_false, hb]
  · simp only [complete_booking, Bool.not_true, Bool.false_eq_true, if_false, hb]
    rw [find?_updateFirst _ _ _ (by intro x; rfl), hb]
    rfl
  · simp only [complete_booking, Bool.not_true, Bool.false_eq_true, if_false, hb]
    intro x hx hnx
    exact mem_updateFirst_of_not_p _ _ _ (by intro x; rfl) x hx hnx

/-- Witness for `complete_booking_frame` at a concrete pending booking. -/
theorem complete_booking_frame_witness :
    (complete_booking true [mkBooking 1 "B1" "a@x" "Alice" "pending" [] 70 70] 1 9).1
        = CompleteResult.completed 70
    ∧ (complete_booking true [mkBooking 1 "B1" "a@x" "Alice" "pending" [] 70 70] 1 9).2.find?
        (fun x => x.oid == 1) =
        some { mkBooking 1 "B1" "a@x" "Alice" "pending" [] 70 70 with
               status := "completed", completed_at := some 9, updated_at := 9 }
    ∧ ∀ x ∈ (complete_booking true [mkBooking 1 "B1" "a@x" "Alice" "pending" [] 70 70] 1 9).2,
        (x.oid == 1) = false → x ∈ [mkBooking 1 "B1" "a@x" "Alice" "pending" [] 70 70] :=
  complete_booking_frame [mkBooking 1 "B1" "a@x" "Alice" "pending" [] 70 70] 1 9
    (mkBooking 1 "B1" "a@x" "Alice" "pending" [] 70 70) (by decide)

/-! ## Claim C1 -/

/-- Claim C1, counterexample: `complete_booking` invoked on a booking whose
status is already terminal (`"cancelled"`) does not fail with a conflict — it
reports success and silently overwrites the terminal status with
`"completed"`. -/
theorem complete_booking_terminal_overwrite_cex :
    (complete_booking true [mkBooking 1 "B1" "a@x" "Alice" "cancelled" [] 0 0] 1 100).1
        = CompleteResult.completed 0
    ∧ ((complete_booking true [mkBooking 1 "B1" "a@x" "Alice" "cancelled" [] 0 0] 1 100).2.map
        Booking.status) = ["completed"] := by
  decide

/-- Claim C1 (amended): only `cancel_booking` guards the pending state — it
fails on a non-pending booking and leaves the collection unchanged — while
`complete_booking` and `reject_booking` overwrite the status of any existing
booking unconditionally (completing even re-transitions terminal bookings to
`completed`, rejecting sets `rejected`), returning success instead of a
conflict. -/
theorem booking_status_transitions_amended
    (db : List Booking) (ue un bid : String) (oid now : Nat) (b c r : Booking)
    (hc : db.find? (fun x => x.booking_id == bid && x.email == ue
        && eqIc x.name un) = some c)
    (hcs : c.status ≠ "pending")
    (hb : db.find? (fun x => x.oid == oid) = some b)
    (hr : db.find? (fun x => x.booking_id == bid) = some r) :
    cancel_booking db ue un bid now = (CancelResult.notPending, db)
    ∧ (complete_booking true db oid now).1 = CompleteResult.completed b.total_amount
    ∧ (complete_booking true db oid now).2.find? (fun x => x.oid == oid) =
        some { b with status := "completed", completed_at := some now,
                      updated_at := now }
    ∧ (reject_booking true db bid now).1 = RejectResult.rejected
    ∧ (reject_booking true db bid now).2.find? (fun x => x.booking_id == bid) =
        some { r with status := "rejected", updated_at := now } := by
  refine ⟨?_, ?_, ?_, ?_, ?_⟩
  · simp only [cancel_booking, hc]
    rw [if_pos (by simpa using hcs)]
  · simp only [complete_booking, Bool.not_true, Bool.false_eq_true, if_false, hb]
  · simp only [complete_booking, Bool.not_true, Bool.false_eq_true, if_false, hb]
    rw [find?_updateFirst _ _ _ (by intro x; rfl), hb]
    rfl
  · simp only [reject_booking, Bool.not_true, Bool.false_eq_true, if_false, hr]
  · simp only [reject_booking, Bool.not_true, Bool.false_eq_true, if_false, hr,
      update_prebooking_status]
    rw [find?_updateFirst _ _ _ (by intro x; rfl), hr]
    rfl

/-- Witness for `booking_status_transitions_amended`: one completed booking
serves as the target of all three transition operations. -/
theorem booking_status_transitions_amended_witness :
    cancel_booking [mkBooking 1 "B1" "a@x" "Alice" "completed" [] 0 0] "a@x" "Alice" "B1" 9
        = (CancelResult.notPending, [mkBooking 1 "B1" "a@x" "Alice" "completed" [] 0 0])
    ∧ (complete_booking true [mkBooking 1 "B1" "a@x" "Alice" "completed" [] 0 0] 1 9).1
        = CompleteResult.completed 0
    ∧ (complete_booking true [mkBooking 1 "B1" "a@x" "Alice" "completed" [] 0 0] 1 9).2.find?
        (fun x => x.oid == 1) =
        some { mkBooking 1 "B1" "a@x" "Alice" "completed" [] 0 0 with
               status := "completed", completed_at := some 9, updated_at := 9 }
    ∧ (reject_booking true [mkBooking 1 "B1" "a@x" "Alice" "completed" [] 0 0] "B1" 9).1
        = RejectResult.rejected
    ∧ (reject_booking true [mkBooking 1 "B1" "a@x" "Alice" "completed" [] 0 0] "B1" 9).2.find?
        (fun x => x.booking_id == "B1") =
        some { mkBooking 1 "B1" "a@x" "Alice" "completed" [] 0 0 with
               status := "rejected", updated_at := 9 } :=
  booking_status_transitions_amended [mkBooking 1 "B1" "a@x" "Alice" "completed" [] 0 0]
    "a@x" "Alice" "B1" 1 9
    (mkBooking 1 "B1" "a@x" "Alice" "completed" [] 0 0)
    (mkBooking 1 "B1" "a@x" "Alice" "completed" [] 0 0)
    (mkBooking 1 "B1" "a@x" "Alice" "completed" [] 0 0)
    (by decide) (by decide) (by decide) (by decide)

/-! ## Claim C9 -/

/-- Claim C9, counterexample: the cancel route does not distinguish a
`NotOwner` outcome — a booking that exists under the requested id but is
owned by a different customer produces exactly the same `notFound` result as
a booking that does not exist at all (ownership is folded into the lookup
query). -/
theorem cancel_not_owner_collapse_cex :
    ([mkBooking 1 "B1" "alice@x" "Alice" "pending" [] 0 0].any
        (fun x => x.booking_id == "B1")) = true
    ∧ cancel_booking [mkBooking 1 "B1" "alice@x" "Alice" "pending" [] 0 0]
        "bob@x" "Bob" "B1" 5
      = (CancelResult.notFound, [mkBooking 1 "B1" "alice@x" "Alice" "pending" [] 0 0])
    ∧ cancel_booking [mkBooking 1 "B1" "alice@x" "Alice" "pending" [] 0 0]
        "bob@x" "Bob" "MISSING" 5
      = (CancelResult.notFound, [mkBooking 1 "B1" "alice@x" "Alice" "pending" [] 0 0]) := by
  decide

/-- Claim C9 (amended): cancelling succeeds only when the requester is the
owning customer (exact email, case-insensitive name) and the booking is still
pending, in which case the status becomes `cancelled` and other documents are
untouched; an owned non-pending booking (in particular a completed one) fails
without any change, so a completed booking stays completed; but a booking
owned by someone else is reported with the same `notFound` outcome as a
missing booking — `NotOwner` is not a distinguished outcome. -/
theorem cancel_booking_guards_amended
    (db : List Booking) (ue1 un1 bid1 ue2 un2 bid2 ue3 un3 bid3 : String)
    (now : Nat) (c1 c2 : Booking)
    (h1 : db.find? (fun x => x.booking_id == bid1 && x.email == ue1
        && eqIc x.name un1) = some c1)
    (h1p : c1.status = "pending")
    (h1u : db.find? (fun x => x.booking_id == bid1) = some c1)
    (h2 : db.find? (fun x => x.booking_id == bid2 && x.email == ue2
        && eqIc x.name un2) = some c2)
    (h2s : c2.status ≠ "pending")
    (h3 : db.find? (fun x => x.booking_id == bid3 && x.email == ue3
        && eqIc x.name un3) = none) :
    (cancel_booking db ue1 un1 bid1 now).1 = CancelResult.cancelled
    ∧ (cancel_booking db ue1 un1 bid1 now).2.find? (fun x => x.booking_id == bid1)
        = some { c1 with status := "cancelled", updated_at := now }
    ∧ (∀ x ∈ (cancel_booking db ue1 un1 bid1 now).2,
        (x.booking_id == bid1) = false → x ∈ db)
    ∧ cancel_booking db ue2 un2 bid2 now = (CancelResult.notPending, db)
    ∧ cancel_booking db ue3 un3 bid3 now = (CancelResult.notFound, db)
    ∧ ((cancel_booking db ue1 un1 bid1 now).1 = CancelResult.cancelled →
        db.any (fun x => x.booking_id == bid1 && x.email == ue1 && eqIc x.name un1
          && x.status == "pending") = true) := by
  refine ⟨?_, ?_, ?_, ?_, ?_, ?_⟩
  · simp [cancel_booking, h1, h1p]
  · simp only [cancel_booking, h1, h1p, bne_self_eq_false, Bool.false_eq_true, if_false]
    rw [find?_updateFirst _ _ _ (by intro x; rfl), h1u]
    rfl
  · simp only [cancel_booking, h1, h1p, bne_self_eq_false, Bool.false_eq_true, if_false]
    intro x hx hnx
    exact mem_updateFirst_of_not_p _ _ _ (by intro x; rfl) x hx hnx
  · simp only [cancel_booking, h2]
    rw [if_pos (by simpa using h2s)]
  · simp [cancel_booking, h3]
  · intro _
    have hpred := List.find?_some h1
    have hmem := List.mem_of_find?_eq_some h1
    refine List.any_eq_true.mpr ⟨c1, hmem, ?_⟩
    simp only [Bool.and_eq_true] at hpred ⊢
    exact ⟨hpred, by simp [h1p]⟩

/-- Witness for `cancel_booking_guards_amended`: one pending and one
completed booking of the same owner, plus a missing id. -/
theorem cancel_booking_guards_amended_witness :
    (cancel_booking [mkBooking 1 "B1" "a@x" "Alice" "pending" [] 0 0,
        mkBooking 2 "B2" "a@x" "Alice" "completed" [] 0 0] "a@x" "alice" "B1" 5).1
      = CancelResult.cancelled
    ∧ (cancel_booking [mkBooking 1 "B1" "a@x" "Alice" "pending" [] 0 0,
        mkBooking 2 "B2" "a@x" "Alice" "completed" [] 0 0] "a@x" "alice" "B1" 5).2.find?
        (fun x => x.booking_id == "B1")
      = some { mkBooking 1 "B1" "a@x" "Alice" "pending" [] 0 0 with
               status := "cancelled", updated_at := 5 }
    ∧ (∀ x ∈ (cancel_booking [mkBooking 1 "B1" "a@x" "Alice" "pending" [] 0 0,
        mkBooking 2 "B2" "a@x" "Alice" "completed" [] 0 0] "a@x" "alice" "B1" 5).2,
        (x.booking_id == "B1") = false →
          x ∈ [mkBooking 1 "B1" "a@x" "Alice" "pending" [] 0 0,
               mkBooking 2 "B2" "a@x" "Alice" "completed" [] 0 0])
    ∧ cancel_booking [mkBooking 1 "B1" "a@x" "Alice" "pending" [] 0 0,
        mkBooking 2 "B2" "a@x" "Alice" "completed" [] 0 0] "a@x" "alice" "B2" 5
      = (CancelResult.notPending, [mkBooking 1 "B1" "a@x" "Alice" "pending" [] 0 0,
          mkBooking 2 "B2" "a@x" "Alice" "completed" [] 0 0])
    ∧ cancel_booking [mkBooking 1 "B1" "a@x" "Alice" "pending" [] 0 0,
        mkBooking 2 "B2" "a@x" "Alice" "completed" [] 0 0] "a@x" "alice" "B9" 5
      = (CancelResult.notFound, [mkBooking 1 "B1" "a@x" "Alice" "pending" [] 0 0,
          mkBooking 2 "B2" "a@x" "Alice" "completed" [] 0 0])
    ∧ ((cancel_booking [mkBooking 1 "B1" "a@x" "Alice" "pending" [] 0 0,
        mkBooking 2 "B2" "a@x" "Alice" "completed" [] 0 0] "a@x" "alice" "B1" 5).1
          = CancelResult.cancelled →
        ([mkBooking 1 "B1" "a@x" "Alice" "pending" [] 0 0,
          mkBooking 2 "B2" "a@x" "Alice" "completed" [] 0 0].any
          (fun x => x.booking_id == "B1" && x.email == "a@x" && eqIc x.name "alice"
            && x.status == "pending")) = true) :=
  cancel_booking_guards_amended
    [mkBooking 1 "B1" "a@x" "Alice" "pending" [] 0 0,
     mkBooking 2 "B2" "a@x" "Alice" "completed" [] 0 0]
    "a@x" "alice" "B1" "a@x" "alice" "B2" "a@x" "alice" "B9" 5
    (mkBooking 1 "B1" "a@x" "Alice" "pending" [] 0 0)
    (mkBooking 2 "B2" "a@x" "Alice" "completed" [] 0 0)
    (by decide) (by decide) (by decide) (by decide) (by decide) (by decide)

/-! ## Claim C7 -/

/-- Claim C7, counterexample: assigning a service amount through the legacy
single-amount path `update_booking_service_amount` adds a flat ₹20 surcharge
(`total_amount = 100 + 20 = 120`) and does not touch `total_service_amount`
(still 0), so neither "total_service_amount equals the sum of the supplied
amounts" nor "total_amount equals total_service_amount" holds there. -/
theorem single_amount_flat_fee_cex :
    (update_booking_service_amount [mkBooking 1 "B1" "a@x" "Alice" "pending" [] 0 0]
        [{ booking_id := "B1", service_amount := none, total_amount := none,
           updated_at := none }] 1 100 7).1 = true
    ∧ ((update_booking_service_amount [mkBooking 1 "B1" "a@x" "Alice" "pending" [] 0 0]
        [{ booking_id := "B1", service_amount := none, total_amount := none,
           updated_at := none }] 1 100 7).2.1.map Booking.total_amount) = [120]
    ∧ ((update_booking_service_amount [mkBooking 1 "B1" "a@x" "Alice" "pending" [] 0 0]
        [{ booking_id := "B1", service_amount := none, total_amount := none,
           updated_at := none }] 1 100 7).2.1.map Booking.total_service_amount) = [0] := by
  decide

/-- Claim C7 (amended): the per-service path `update_booking_service_amounts`
does recompute `total_service_amount` as the sum of the supplied amounts and
`total_amount` equal to it with no surcharge, deterministically from the new
list alone (the stored document depends only on the old booking, the list and
the timestamp); but the legacy single-amount path
`update_booking_service_amount` instead sets `total_amount = amount + 20` (a
flat ₹20 fee) and leaves `total_service_amount` untouched. -/
theorem booking_totals_amended
    (db : List Booking) (payments : List Payment) (oid oid2 now : Nat)
    (sd : List (String × Int)) (amt : Int) (b b2 : Booking)
    (hb : db.find? (fun x => x.oid == oid) = some b)
    (hb2 : db.find? (fun x => x.oid == oid2) = some b2) :
    (update_booking_service_amounts db oid sd now).2.find? (fun x => x.oid == oid)
      = some { b with services := sd.map (fun s => ServiceEntry.withAmount s.1 s.2),
                      total_service_amount := (sd.map (fun s => s.2)).sum,
                      total_amount := (sd.map (fun s => s.2)).sum,
                      amount_updated_at := some now }
    ∧ ({ b with services := sd.map (fun s => ServiceEntry.withAmount s.1 s.2),
                total_service_amount := (sd.map (fun s => s.2)).sum,
                total_amount := (sd.map (fun s => s.2)).sum,
                amount_updated_at := some now } ≠ b →
        (update_booking_service_amounts db oid sd now).1
          = (true, some ((sd.map (fun s => s.2)).sum, (sd.map (fun s => s.2)).sum)))
    ∧ (update_booking_service_amount db payments oid2 amt now).2.1.find?
        (fun x => x.oid == oid2)
      = some { b2 with service_amount := some amt, total_amount := amt + 20,
                       amount_updated_at := some now } := by
  refine ⟨?_, ?_, ?_⟩
  · simp only [update_booking_service_amounts, hb]
    rw [find?_updateFirst _ _ _ (by intro x; rfl), hb]
    rfl
  · intro hne
    simp only [update_booking_service_amounts, hb]
    rw [if_neg hne]
  · simp only [update_booking_service_amount, hb2]
    rw [find?_updateFirst _ _ _ (by intro x; rfl), hb2]
    rfl

/-- Witness for `booking_totals_amended` at a concrete booking with two
services priced 30 and 40. -/
theorem booking_totals_amended_witness :
    (update_booking_service_amounts [mkBooking 1 "B1" "a@x" "Alice" "pending" [] 0 0]
        1 [("Greasing", 30), ("Painting", 40)] 7).2.find? (fun x => x.oid == 1)
      = some { mkBooking 1 "B1" "a@x" "Alice" "pending" [] 0 0 with
               services := [ServiceEntry.withAmount "Greasing" 30,
                            ServiceEntry.withAmount "Painting" 40],
               total_service_amount := 70, total_amount := 70,
               amount_updated_at := some 7 }
    ∧ ({ mkBooking 1 "B1" "a@x" "Alice" "pending" [] 0 0 with
         services := [ServiceEntry.withAmount "Greasing" 30,
                      ServiceEntry.withAmount "Painting" 40],
         total_service_amount := 70, total_amount := 70,
         amount_updated_at := some 7 } ≠ mkBooking 1 "B1" "a@x" "Alice" "pending" [] 0 0 →
        (update_booking_service_amounts [mkBooking 1 "B1" "a@x" "Alice" "pending" [] 0 0]
          1 [("Greasing", 30), ("Painting", 40)] 7).1 = (true, some (70, 70)))
    ∧ (update_booking_service_amount [mkBooking 1 "B1" "a@x" "Alice" "pending" [] 0 0]
        [{ booking_id := "B1", service_amount := none, total_amount := none,
           updated_at := none }] 1 100 7).2.1.find? (fun x => x.oid == 1)
      = some { mkBooking 1 "B1" "a@x" "Alice" "pending" [] 0 0 with
               service_amount := some 100, total_amount := 120,
               amount_updated_at := some 7 } := by
  have h := booking_totals_amended [mkBooking 1 "B1" "a@x" "Alice" "pending" [] 0 0]
    [{ booking_id := "B1", service_amount := none, total_amount := none,
       updated_at := none }] 1 1 7 [("Greasing", 30), ("Painting", 40)] 100
    (mkBooking 1 "B1" "a@x" "Alice" "pending" [] 0 0)
    (mkBooking 1 "B1" "a@x" "Alice" "pending" [] 0 0) (by decide) (by decide)
  exact ⟨by simpa using h.1, fun _ => by simpa using h.2.1 (by decide), by simpa using h.2.2⟩

/-! ## Claim C4 -/

/-- Claim C4, counterexample: a verification call on POST /verify-otp made
301 s after issuance does fail as expired, but the challenge is *not*
cleared — the session afterwards is unchanged and still holds the stored
code, even though the submitted code matches. -/
theorem otp_expiry_route_not_cleared_cex :
    verify_otp_route
      { otp := some "123456", otpTime := some 0, otpVerified := false,
        userEmail := none } "a@x" "123456" 301
      = (RouteVerifyResult.expired,
         { otp := some "123456", otpTime := some 0, otpVerified := false,
           userEmail := none })
    ∧ (verify_otp_route
        { otp := some "123456", otpTime := some 0, otpVerified := false,
          userEmail := none } "a@x" "123456" 301).2.otp ≠ none := by
  decide

/-- Claim C4 (amended): no verification path ever succeeds once more than
300 seconds have elapsed since issuance, whatever code is submitted:
`OTPManager.verify_otp` returns the expired failure *and clears the
challenge* (the stored hash becomes `none`), while the plain routes
POST /verify-otp and POST /login-otp return their expired failures but leave
the session — including the stored challenge — untouched. -/
theorem otp_expiry_amended
    (hash : String → String) (s : OtpMgrSession) (sh entered : String)
    (now t : Nat) (hs : s.otp = some sh) (ht : s.otpTime = some t)
    (hexp : 300 < now - t)
    (ps : PlainOtpSession) (pc email entered2 : String) (now2 t2 : Nat)
    (hps : ps.otp = some pc) (hpt : ps.otpTime = some t2)
    (hexp2 : 300 < now2 - t2)
    (ls : LoginSession) (lc entered3 : String) (now3 t3 : Nat)
    (hls : ls.loginOtp = some lc) (hlt : ls.loginOtpTime = some t3)
    (hexp3 : 300 < now3 - t3) :
    verify_otp hash s entered now = (VerifyResult.expired, clear_otp s)
    ∧ (verify_otp hash s entered now).2.otp = none
    ∧ verify_otp_route ps email entered2 now2 = (RouteVerifyResult.expired, ps)
    ∧ login_otp ls entered3 now3 = (LoginOtpResult.expired, ls) := by
  refine ⟨?_, ?_, ?_, ?_⟩
  · simp only [verify_otp, hs, ht]
    rw [if_pos (by simp [hexp])]
  · simp only [verify_otp, hs, ht]
    rw [if_pos (by simp [hexp])]
    rfl
  · simp only [verify_otp_route, hps, hpt]
    rw [if_pos hexp2]
  · simp only [login_otp, hls, hlt]
    rw [if_pos hexp3]

/-- Witness for `otp_expiry_amended` with the identity as hash function and
all three sessions issued at t = 1, verified at t = 302. -/
theorem otp_expiry_amended_witness :
    verify_otp id
      { otp := some "999999", otpTime := some 1, email := some "a@x",
        lastSent := some 1, attempts := 0, requests := [1] } "999999" 302
      = (VerifyResult.expired,
         clear_otp { otp := some "999999", otpTime := some 1, email := some "a@x",
                     lastSent := some 1, attempts := 0, requests := [1] })
    ∧ (verify_otp id
        { otp := some "999999", otpTime := some 1, email := some "a@x",
          lastSent := some 1, attempts := 0, requests := [1] } "999999" 302).2.otp = none
    ∧ verify_otp_route
        { otp := some "888888", otpTime := some 1, otpVerified := false,
          userEmail := none } "a@x" "888888" 302
      = (RouteVerifyResult.expired,
         { otp := some "888888", otpTime := some 1, otpVerified := false,
           userEmail := none })
    ∧ login_otp
        { loginOtp := some "777777", loginOtpTime := some 1,
          loginUserId := some "u1", loginUserEmail := some "a@x",
          loginUserName := some "Alice", userId := none, userEmail := none,
          userName := none } "777777" 302
      = (LoginOtpResult.expired,
         { loginOtp := some "777777", loginOtpTime := some 1,
           loginUserId := some "u1", loginUserEmail := some "a@x",
           loginUserName := some "Alice", userId := none, userEmail := none,
           userName := none }) :=
  otp_expiry_amended id _ "999999" "999999" 302 1 (by decide) (by decide) (by decide)
    _ "888888" "a@x" "888888" 302 1 (by decide) (by decide) (by decide)
    _ "777777" "777777" 302 1 (by decide) (by decide) (by decide)

/-! ## Claim C5 -/

/-- Claim C5, counterexample: the login verification route counts no
attempts — after three failed attempts against the same challenge (each of
which demonstrably leaves the session unchanged), a fourth call with the
correct code still succeeds without any re-issuance. -/
theorem login_no_attempt_limit_cex :
    login_otp
      { loginOtp := some "654321", loginOtpTime := some 0,
        loginUserId := some "u1", loginUserEmail := some "a@x",
        loginUserName := some "Alice", userId := none, userEmail := none,
        userName := none } "000000" 10
      = (LoginOtpResult.invalid,
         { loginOtp := some "654321", loginOtpTime := some 0,
           loginUserId := some "u1", loginUserEmail := some "a@x",
           loginUserName := some "Alice", userId := none, userEmail := none,
           userName := none })
    ∧ login_otp
        { loginOtp := some "654321", loginOtpTime := some 0,
          loginUserId := some "u1", loginUserEmail := some "a@x",
          loginUserName := some "Alice", userId := none, userEmail := none,
          userName := none } "111111" 20
      = (LoginOtpResult.invalid,
         { loginOtp := some "654321", loginOtpTime := some 0,
           loginUserId := some "u1", loginUserEmail := some "a@x",
           loginUserName := some "Alice", userId := none, userEmail := none,
           userName := none })
    ∧ login_otp
        { loginOtp := some "654321", loginOtpTime := some 0,
          loginUserId := some "u1", loginUserEmail := some "a@x",
          loginUserName := some "Alice", userId := none, userEmail := none,
          userName := none } "222222" 30
      = (LoginOtpResult.invalid,
         { loginOtp := some "654321", loginOtpTime := some 0,
           loginUserId := some "u1", loginUserEmail := some "a@x",
           loginUserName := some "Alice", userId := none, userEmail := none,
           userName := none })
    ∧ (login_otp
        { loginOtp := some "654321", loginOtpTime := some 0,
          loginUserId := some "u1", loginUserEmail := some "a@x",
          loginUserName := some "Alice", userId := none, userEmail := none,
          userName := none } "654321" 40).1 = LoginOtpResult.success := by
  decide

/-- A failed login-OTP attempt leaves the session untouched (there is no
attempt counter in the route). -/
theorem login_otp_invalid_frame (ls : LoginSession) (entered : String) (now : Nat)
    (hinv : (login_otp ls entered now).1 = LoginOtpResult.invalid) :
    (login_otp ls entered now).2 = ls := by
  rcases h1 : ls.loginOtp with _ | code
  · simp [login_otp, h1]
  rcases h2 : ls.loginOtpTime with _ | t
  · simp [login_otp, h1, h2]
  by_cases hexp : 300 < now - t
  · simp [login_otp, h1, h2, hexp]
  by_cases hm : (entered == code) = true
  · rcases h3 : ls.loginUserId with _ | uid
    · simp [login_otp, h1, h2, hexp, hm, h3]
    rcases h4 : ls.loginUserEmail with _ | ue
    · simp [login_otp, h1, h2, hexp, hm, h3, h4]
    rcases h5 : ls.loginUserName with _ | un
    · simp [login_otp, h1, h2, hexp, hm, h3, h4, h5]
    · simp [login_otp, h1, h2, hexp, hm, h3, h4, h5] at hinv
  · simp [login_otp, h1, h2, hexp, hm]

/-- Claim C5 (amended): `OTPManager.verify_otp` does enforce the limit —
once 3 attempts are used, every further call (for any submitted code,
correct or not) returns the terminal attempt-limit failure without touching
the session, and only a re-issuance (`store_otp`) resets the counter;
the login route, however, enforces no attempt limit at all: a failed attempt
leaves the session unchanged, so no number of failures ever blocks a later
correct code. -/
theorem otp_attempt_limit_amended
    (hash : String → String) (s : OtpMgrSession) (sh entered : String)
    (now t : Nat) (hs : s.otp = some sh) (ht : s.otpTime = some t)
    (htz : t ≠ 0) (hfresh : ¬ 300 < now - t) (hatt : 3 ≤ s.attempts) :
    verify_otp hash s entered now = (VerifyResult.tooManyAttempts, s)
    ∧ (∀ code email now2, (store_otp hash s code email now2).attempts = 0)
    ∧ (∀ ls entered2 now3, (login_otp ls entered2 now3).1 = LoginOtpResult.invalid →
        (login_otp ls entered2 now3).2 = ls) := by
  refine ⟨?_, fun code email now2 => rfl, fun ls entered2 now3 h =>
    login_otp_invalid_frame ls entered2 now3 h⟩
  simp only [verify_otp, hs, ht]
  rw [if_neg (by simp [htz, hfresh]), if_pos (by simp [check_attempt_limit, hatt])]

/-- Witness for `otp_attempt_limit_amended`: a challenge with 3 used
attempts refuses the correct code. -/
theorem otp_attempt_limit_amended_witness :
    verify_otp id
      { otp := some "424242", otpTime := some 1, email := some "a@x",
        lastSent := some 1, attempts := 3, requests := [1] } "424242" 100
      = (VerifyResult.tooManyAttempts,
         { otp := some "424242", otpTime := some 1, email := some "a@x",
           lastSent := some 1, attempts := 3, requests := [1] })
    ∧ (∀ code email now2,
        (store_otp id
          { otp := some "424242", otpTime := some 1, email := some "a@x",
            lastSent := some 1, attempts := 3, requests := [1] }
          code email now2).attempts = 0)
    ∧ (∀ ls entered2 now3, (login_otp ls entered2 now3).1 = LoginOtpResult.invalid →
        (login_otp ls entered2 now3).2 = ls) :=
  otp_attempt_limit_amended id _ "424242" "424242" 100 1 (by decide) (by decide)
    (by decide) (by decide) (by decide)

/-! ## Claim C6 -/

/-- Claim C6, counterexample: the issuance route POST /send-otp applies
neither the rolling-window rate limit nor the cooldown — six issuance
requests 10 seconds apart (so all within one 60-minute window, each less
than 60 s after the previous one) all succeed, the sixth included, each
generating and storing a fresh code. -/
theorem send_otp_no_guards_cex :
    send_otp { otp := none, otpTime := none, otpVerified := false, userEmail := none }
        (some "a@x") "111111" 0 true
      = (SendOtpResult.sent "111111",
         { otp := some "111111", otpTime := some 0, otpVerified := false, userEmail := none })
    ∧ send_otp { otp := some "111111", otpTime := some 0, otpVerified := false, userEmail := none }
        (some "a@x") "222222" 10 true
      = (SendOtpResult.sent "222222",
         { otp := some "222222", otpTime := some 10, otpVerified := false, userEmail := none })
    ∧ send_otp { otp := some "222222", otpTime := some 10, otpVerified := false, userEmail := none }
        (some "a@x") "333333" 20 true
      = (SendOtpResult.sent "333333",
         { otp := some "333333", otpTime := some 20, otpVerified := false, userEmail := none })
    ∧ send_otp { otp := some "333333", otpTime := some 20, otpVerified := false, userEmail := none }
        (some "a@x") "444444" 30 true
      = (SendOtpResult.sent "444444",
         { otp := some "444444", otpTime := some 30, otpVerified := false, userEmail := none })
    ∧ send_otp { otp := some "444444", otpTime := some 30, otpVerified := false, userEmail := none }
        (some "a@x") "555555" 40 true
      = (SendOtpResult.sent "555555",
         { otp := some "555555", otpTime := some 40, otpVerified := false, userEmail := none })
    ∧ send_otp { otp := some "555555", otpTime := some 40, otpVerified := false, userEmail := none }
        (some "a@x") "666666" 50 true
      = (SendOtpResult.sent "666666",
         { otp := some "666666", otpTime := some 50, otpVerified := false, userEmail := none }) := by
  decide

/-- Claim C6 (amended): the guards exist only in `OTPManager`, which the
issuance route never calls: `check_rate_limit` refuses a request once 5
requests sit in the rolling 60-minute window, mutating nothing, and
`can_resend_otp` refuses a request less than 60 s after the previous
issuance; the route POST /send-otp itself performs neither check and
unconditionally generates and stores a fresh code on every call. -/
theorem otp_issue_guards_amended
    (s : OtpMgrSession) (now : Nat)
    (hfull : 5 ≤ (s.requests.filter (fun t => now - t < 3600)).length)
    (s2 : OtpMgrSession) (now2 t2 : Nat)
    (hlast : s2.lastSent = some t2) (hsoon : now2 - t2 < 60) :
    check_rate_limit s now = (false, s)
    ∧ can_resend_otp s2 now2 = false
    ∧ (∀ ps email code now3 ok,
        (send_otp ps (some email) code now3 ok).2
          = { ps with otp := some code, otpTime := some now3, otpVerified := false }) := by
  refine ⟨?_, ?_, ?_⟩
  · simp only [check_rate_limit]
    rw [if_pos hfull]
  · simp only [can_resend_otp, hlast]
    simp [hsoon]
  · intro ps email code now3 ok
    cases ok <;> rfl

/-- Witness for `otp_issue_guards_amended`: five requests in the last hour,
and a previous issuance 10 seconds ago. -/
theorem otp_issue_guards_amended_witness :
    check_rate_limit
      { otp := none, otpTime := none, email := none, lastSent := none,
        attempts := 0, requests := [100, 200, 300, 400, 500] } 600
      = (false,
         { otp := none, otpTime := none, email := none, lastSent := none,
           attempts := 0, requests := [100, 200, 300, 400, 500] })
    ∧ can_resend_otp
        { otp := some "111111", otpTime := some 590, email := some "a@x",
          lastSent := some 590, attempts := 0, requests := [590] } 600 = false
    ∧ (∀ ps email code now3 ok,
        (send_otp ps (some email) code now3 ok).2
          = { ps with otp := some code, otpTime := some now3, otpVerified := false }) :=
  otp_issue_guards_amended _ 600 (by decide) _ 600 590 (by decide) (by decide)

/-! ## Claim C8 -/

/-- Claim C8, counterexample: POST /verify-otp does not clear the stored
challenge on success — the very same code verifies successfully a second
time against the same session. -/
theorem verify_otp_route_replay_cex :
    (verify_otp_route
      { otp := some "222222", otpTime := some 0, otpVerified := false,
        userEmail := none } "a@x" "222222" 10).1 = RouteVerifyResult.success
    ∧ (verify_otp_route
        (verify_otp_route
          { otp := some "222222", otpTime := some 0, otpVerified := false,
            userEmail := none } "a@x" "222222" 10).2 "a@x" "222222" 20).1
      = RouteVerifyResult.success := by
  decide

/-- Claim C8 (amended): `OTPManager.verify_otp` behaves as claimed — a
matching code (within the window and attempt limit) verifies, clears the
challenge and the attempt counter, after which a second verification finds
no challenge; a mismatch increments the counter and reports the remaining
attempts.  The login route also clears its challenge on success, so its code
cannot be replayed.  But POST /verify-otp leaves the stored code in the
session on success, so the same code verifies successfully a second time,
and it tracks no attempt counter at all. -/
theorem otp_verify_success_amended
    (hash : String → String) (s : OtpMgrSession) (sh good bad : String)
    (now t : Nat) (hs : s.otp = some sh) (ht : s.otpTime = some t)
    (htz : t ≠ 0) (hfresh : ¬ 300 < now - t) (hatt : s.attempts < 3)
    (hgood : hash good = sh) (hbad : hash bad ≠ sh)
    (ls : LoginSession) (lc uid ue un : String) (now3 t3 : Nat)
    (hls : ls.loginOtp = some lc) (hlt : ls.loginOtpTime = some t3)
    (hfresh3 : ¬ 300 < now3 - t3) (hluid : ls.loginUserId = some uid)
    (hlue : ls.loginUserEmail = some ue) (hlun : ls.loginUserName = some un)
    (ps : PlainOtpSession) (pc email : String) (now5 t5 : Nat)
    (hps : ps.otp = some pc) (hpt : ps.otpTime = some t5)
    (hfresh5 : ¬ 300 < now5 - t5) :
    verify_otp hash s good now = (VerifyResult.verified, reset_attempts (clear_otp s))
    ∧ (verify_otp hash s good now).2.otp = none
    ∧ (verify_otp hash s good now).2.attempts = 0
    ∧ (∀ entered2 now2, (verify_otp hash (verify_otp hash s good now).2 entered2 now2).1
        = VerifyResult.noOtp)
    ∧ verify_otp hash s bad now
        = (VerifyResult.invalid (3 - (s.attempts + 1)), increment_attempts s)
    ∧ (login_otp ls lc now3).1 = LoginOtpResult.success
    ∧ (login_otp ls lc now3).2.loginOtp = none
    ∧ (∀ entered4 now4, (login_otp (login_otp ls lc now3).2 entered4 now4).1
        = LoginOtpResult.sessionExpired)
    ∧ verify_otp_route ps email pc now5
        = (RouteVerifyResult.success,
           { ps with otpVerified := true, userEmail := some email })
    ∧ (verify_otp_route ps email pc now5).2.otp = some pc := by
  have hmgr : verify_otp hash s good now
      = (VerifyResult.verified, reset_attempts (clear_otp s)) := by
    simp only [verify_otp, hs, ht]
    rw [if_neg (by simp [htz, hfresh]),
      if_neg (by simp [check_attempt_limit, Nat.not_le.mpr hatt]),
      if_pos (by simp [hgood])]
  have hlog : (login_otp ls lc now3)
      = (LoginOtpResult.success,
         { loginOtp := none, loginOtpTime := none, loginUserId := none,
           loginUserEmail := none, loginUserName := none, userId := some uid,
           userEmail := some ue, userName := some un }) := by
    simp only [login_otp, hls, hlt, hluid, hlue, hlun]
    rw [if_neg hfresh3, if_pos (by simp)]
  have hroute : verify_otp_route ps email pc now5
      = (RouteVerifyResult.success,
         { ps with otpVerified := true, userEmail := some email }) := by
    simp only [verify_otp_route, hps, hpt]
    rw [if_neg hfresh5, if_pos (by simp)]
  refine ⟨hmgr, by rw [hmgr]; rfl, by rw [hmgr]; rfl, ?_, ?_, by rw [hlog],
    by rw [hlog], ?_, hroute, by rw [hroute]; simpa using hps⟩
  · intro entered2 now2
    rw [hmgr]
    rfl
  · simp only [verify_otp, hs, ht]
    rw [if_neg (by simp [htz, hfresh]),
      if_neg (by simp [check_attempt_limit, Nat.not_le.mpr hatt]),
      if_neg (by simp [hbad])]
    rfl
  · intro entered4 now4
    rw [hlog]
    rfl

/-- Witness for `otp_verify_success_amended` with the identity hash, a
matching code "131313" and a mismatching "000000". -/
theorem otp_verify_success_amended_witness :
    verify_otp id
      { otp := some "131313", otpTime := some 1, email := some "a@x",
        lastSent := some 1, attempts := 1, requests := [1] } "131313" 100
      = (VerifyResult.verified,
         reset_attempts (clear_otp
           { otp := some "131313", otpTime := some 1, email := some "a@x",
             lastSent := some 1, attempts := 1, requests := [1] }))
    ∧ (verify_otp id
        { otp := some "131313", otpTime := some 1, email := some "a@x",
          lastSent := some 1, attempts := 1, requests := [1] } "131313" 100).2.otp = none
    ∧ (verify_otp id
        { otp := some "131313", otpTime := some 1, email := some "a@x",
          lastSent := some 1, attempts := 1, requests := [1] } "131313" 100).2.attempts = 0
    ∧ (∀ entered2 now2,
        (verify_otp id
          (verify_otp id
            { otp := some "131313", otpTime := some 1, email := some "a@x",
              lastSent := some 1, attempts := 1, requests := [1] } "131313" 100).2
          entered2 now2).1 = VerifyResult.noOtp)
    ∧ verify_otp id
        { otp := some "131313", otpTime := some 1, email := some "a@x",
          lastSent := some 1, attempts := 1, requests := [1] } "000000" 100
      = (VerifyResult.invalid 1,
         increment_attempts
           { otp := some "131313", otpTime := some 1, email := some "a@x",
             lastSent := some 1, attempts := 1, requests := [1] })
    ∧ (login_otp
        { loginOtp := some "777777", loginOtpTime := some 1,
          loginUserId := some "u1", loginUserEmail := some "a@x",
          loginUserName := some "Alice", userId := none, userEmail := none,
          userName := none } "777777" 100).1 = LoginOtpResult.success
    ∧ (login_otp
        { loginOtp := some "777777", loginOtpTime := some 1,
          loginUserId := some "u1", loginUserEmail := some "a@x",
          loginUserName := some "Alice", userId := none, userEmail := none,
          userName := none } "777777" 100).2.loginOtp = none
    ∧ (∀ entered4 now4,
        (login_otp
          (login_otp
            { loginOtp := some "777777", loginOtpTime := some 1,
              loginUserId := some "u1", loginUserEmail := some "a@x",
              loginUserName := some "Alice", userId := none, userEmail := none,
              userName := none } "777777" 100).2 entered4 now4).1
          = LoginOtpResult.sessionExpired)
    ∧ verify_otp_route
        { otp := some "555555", otpTime := some 1, otpVerified := false,
          userEmail := none } "a@x" "555555" 100
      = (RouteVerifyResult.success,
         { otp := some "555555", otpTime := some 1, otpVerified := true,
           userEmail := some "a@x" })
    ∧ (verify_otp_route
        { otp := some "555555", otpTime := some 1, otpVerified := false,
          userEmail := none } "a@x" "555555" 100).2.otp = some "555555" := by
  have h := otp_verify_success_amended id
    { otp := some "131313", otpTime := some 1, email := some "a@x",
      lastSent := some 1, attempts := 1, requests := [1] }
    "131313" "131313" "000000" 100 1
    (by decide) (by decide) (by decide) (by decide) (by decide) (by decide) (by decide)
    { loginOtp := some "777777", loginOtpTime := some 1,
      loginUserId := some "u1", loginUserEmail := some "a@x",
      loginUserName := some "Alice", userId := none, userEmail := none,
      userName := none }
    "777777" "u1" "a@x" "Alice" 100 1
    (by decide) (by decide) (by decide) (by decide) (by decide) (by decide)
    { otp := some "555555", otpTime := some 1, otpVerified := false,
      userEmail := none }
    "555555" "a@x" 100 1 (by decide) (by decide) (by decide)
  exact ⟨h.1, h.2.1, h.2.2.1, h.2.2.2.1, by simpa using h.2.2.2.2.1, h.2.2.2.2.2.1,
    h.2.2.2.2.2.2.1, h.2.2.2.2.2.2.2.1, by simpa using h.2.2.2.2.2.2.2.2.1,
    by simpa using h.2.2.2.2.2.2.2.2.2⟩

/-! ## Claim C2 -/

/-- The unique index preserves exact-key uniqueness of the ratings
collection. -/
theorem noDupKeys_tryIndexInsert (l : List Rating) (r : Rating) (h : NoDupKeys l) :
    NoDupKeys (tryIndexInsert l r) := by
  by_cases hdup : l.any (fun x => x.booking_id == r.booking_id
      && x.service_name == r.service_name) = true
  · simpa [tryIndexInsert, ratings_index_insert, hdup] using h
  · have hins : tryIndexInsert l r = l ++ [r] := by
      simp [tryIndexInsert, ratings_index_insert, hdup]
    rw [hins, NoDupKeys, List.pairwise_append]
    refine ⟨h, by simp, ?_⟩
    intro a ha b hb
    simp only [List.mem_singleton] at hb
    subst hb
    intro hk
    exact hdup (List.any_eq_true.mpr ⟨a, ha, by simp [hk.1, hk.2]⟩)

/-- Claim C2, counterexample: two racing submissions for the same booking
whose service names differ only in case (and are absent from the catalog, so
normalization keeps them apart) both insert — afterwards two rating records
exist for one (booking, case-insensitive service name) pair. -/
theorem rating_race_ci_duplicate_cex :
    (insert_rating_race [] [] (mkRating "B1" "foo" 4) (mkRating "B1" "FOO" 5)).map
        (fun r => (r.booking_id, r.service_name)) = [("B1", "foo"), ("B1", "FOO")]
    ∧ eqIc "foo" "FOO" = true := by
  decide

/-- Claim C2 (amended): a sequential duplicate submission is rejected by the
application-level pre-check, which matches case-insensitively, inserting
nothing; under a race only the storage's unique index stands, and it
guarantees at most one rating per *exact* `(booking_id, service_name)` pair
(never case-insensitively): when the catalog resolves both racing names to
the same canonical form the two inserts collide on the same exact key and at
most one succeeds, but two casings of a name absent from the catalog can
both insert. -/
theorem rating_uniqueness_amended :
    (∀ catalog ratings r, r.booking_id ≠ "" → r.service_name ≠ "" →
      check_user_rating_exists_for_booking ratings r.booking_id
        (canonical_service_name catalog r.service_name) = true →
      insert_rating catalog ratings r
        = Except.error "Rating already exists for this booking and service")
    ∧ (∀ catalog ratings r1 r2, NoDupKeys ratings →
        NoDupKeys (insert_rating_race catalog ratings r1 r2))
    ∧ (∀ catalog r1 r2, r1.booking_id = r2.booking_id → r1.booking_id ≠ "" →
        r1.service_name ≠ "" → r2.service_name ≠ "" →
        canonical_service_name catalog r1.service_name
          = canonical_service_name catalog r2.service_name →
        (insert_rating_race catalog [] r1 r2).length ≤ 1) := by
  refine ⟨?_, ?_, ?_⟩
  · intro catalog ratings r hb hn hex
    simp only [insert_rating]
    rw [if_neg (by simp [hb]), if_neg (by simp [hn])]
    rw [if_pos (by simpa using hex)]
  · intro catalog ratings r1 r2 h
    have step : ∀ (l : List Rating) (c : Bool) (r : Rating), NoDupKeys l →
        NoDupKeys (if c = true then tryIndexInsert l r else l) := by
      intro l c r hl
      cases c
      · simpa using hl
      · simpa using noDupKeys_tryIndexInsert l r hl
    simp only [insert_rating_race]
    exact step _ _ _ (step _ _ _ h)
  · intro catalog r1 r2 hbid hb1 hn1 hn2 hcan
    have hb2 : r2.booking_id ≠ "" := by rw [← hbid]; exact hb1
    simp [insert_rating_race, tryIndexInsert, ratings_index_insert,
      check_user_rating_exists_for_booking, hb1, hn1, hn2, hb2, hbid, hcan]

/-- Witness for `rating_uniqueness_amended`: a stored rating for
("B1", "Puncturing") makes a lower-case resubmission fail sequentially; the
race invariant holds on a concrete collection; two racing names that the
catalog both resolves to "Puncturing" produce at most one record. -/
theorem rating_uniqueness_amended_witness :
    insert_rating [{ name := "Puncturing", price := 50 }]
        [mkRating "B1" "Puncturing" 4] (mkRating "B1" "puncturing" 5)
      = Except.error "Rating already exists for this booking and service"
    ∧ NoDupKeys (insert_rating_race [{ name := "Puncturing", price := 50 }]
        [mkRating "B1" "Puncturing" 4] (mkRating "B2" "puncturing" 5)
        (mkRating "B2" "PUNCTURING" 3))
    ∧ (insert_rating_race [{ name := "Puncturing", price := 50 }] []
        (mkRating "B1" "puncturing" 5) (mkRating "B1" "PUNCTURING" 3)).length ≤ 1 :=
  ⟨rating_uniqueness_amended.1 [{ name := "Puncturing", price := 50 }]
      [mkRating "B1" "Puncturing" 4] (mkRating "B1" "puncturing" 5)
      (by decide) (by decide) (by decide),
   rating_uniqueness_amended.2.1 [{ name := "Puncturing", price := 50 }]
      [mkRating "B1" "Puncturing" 4] (mkRating "B2" "puncturing" 5)
      (mkRating "B2" "PUNCTURING" 3) (by simp [NoDupKeys]),
   rating_uniqueness_amended.2.2 [{ name := "Puncturing", price := 50 }]
      (mkRating "B1" "puncturing" 5) (mkRating "B1" "PUNCTURING" 3)
      (by decide) (by decide) (by decide) (by decide) (by decide)⟩

/-! ## Claim C3 -/

/-- Claim C3, counterexample: the route checks the *raw* submitted name
against the booking's list by exact string equality, not the canonical
catalog form — a submission for "puncturing" against a booking listing
"puncturing" succeeds although the canonical form "Puncturing" does not
appear in that list; and the existence, ownership and completed-status
conditions share one indistinguishable rejection (a booking owned by someone
else and a booking that is merely not completed produce the same outcome). -/
theorem rating_submission_conditions_cex :
    (rate_service_with_images [{ name := "Puncturing", price := 50 }]
      [mkBooking 1 "B1" "a@x" "Alice" "completed" [ServiceEntry.nameOnly "puncturing"] 0 0]
      [] "a@x" "Alice"
      { user_name := "Alice", service_name := "puncturing", booking_id := "B1",
        ratingStr := "4", comment := "", photos := [] }).1 = RateOutcome.success
    ∧ canonical_service_name [{ name := "Puncturing", price := 50 }] "puncturing"
        = "Puncturing"
    ∧ ([ServiceEntry.nameOnly "puncturing"].any
        (fun e => entryName e == "Puncturing")) = false
    ∧ (rate_service_with_images [{ name := "Puncturing", price := 50 }]
        [mkBooking 1 "B1" "a@x" "Alice" "completed" [ServiceEntry.nameOnly "puncturing"] 0 0]
        [] "b@x" "Alice"
        { user_name := "Alice", service_name := "puncturing", booking_id := "B1",
          ratingStr := "4", comment := "", photos := [] }).1
      = RateOutcome.noCompletedBooking
    ∧ (rate_service_with_images [{ name := "Puncturing", price := 50 }]
        [mkBooking 1 "B1" "a@x" "Alice" "pending" [ServiceEntry.nameOnly "puncturing"] 0 0]
        [] "a@x" "Alice"
        { user_name := "Alice", service_name := "puncturing", booking_id := "B1",
          ratingStr := "4", comment := "", photos := [] }).1
      = RateOutcome.noCompletedBooking := by
  decide

/-- Claim C3 (amended): a rating submission succeeds only if a booking with
the submitted id exists that is owned (by email) by the submitter, has
status completed, and lists the *raw* submitted service name verbatim (in
either shape) — canonical catalog resolution is applied only to the stored
rating and the duplicate check, not to the membership test.  Existence,
ownership and completed status are checked by one lookup that yields a
single shared rejection; the later conditions (service not in the booking,
duplicate rating, photo limit) each yield their own distinct rejection. -/
theorem rating_submission_conditions_amended :
    (∀ catalog db ratings se sn req rs,
      rate_service_with_images catalog db ratings se sn req
          = (RateOutcome.success, rs) →
      db.any (fun b => b.booking_id == req.booking_id && b.email == se
        && b.status == "completed"
        && b.services.any (fun e => entryName e == req.service_name)) = true)
    ∧ (∀ catalog db ratings se sn (req : RateRequest) rv,
        req.user_name ≠ "" → req.service_name ≠ "" → req.booking_id ≠ "" →
        req.ratingStr ≠ "" → parse_int req.ratingStr = some rv →
        1 ≤ rv → rv ≤ 5 → eqIc req.user_name sn = true →
        db.find? (fun b => b.booking_id == req.booking_id && b.email == se
          && b.status == "completed") = none →
        rate_service_with_images catalog db ratings se sn req
          = (RateOutcome.noCompletedBooking, ratings))
    ∧ (∀ catalog db ratings se sn (req : RateRequest) rv b,
        req.user_name ≠ "" → req.service_name ≠ "" → req.booking_id ≠ "" →
        req.ratingStr ≠ "" → parse_int req.ratingStr = some rv →
        1 ≤ rv → rv ≤ 5 → eqIc req.user_name sn = true →
        db.find? (fun b => b.booking_id == req.booking_id && b.email == se
          && b.status == "completed") = some b →
        b.services.any (fun e => entryName e == req.service_name) = false →
        rate_service_with_images catalog db ratings se sn req
          = (RateOutcome.serviceNotInBooking, ratings))
    ∧ (∀ catalog db ratings se sn (req : RateRequest) rv b,
        req.user_name ≠ "" → req.service_name ≠ "" → req.booking_id ≠ "" →
        req.ratingStr ≠ "" → parse_int req.ratingStr = some rv →
        1 ≤ rv → rv ≤ 5 → eqIc req.user_name sn = true →
        db.find? (fun b => b.booking_id == req.booking_id && b.email == se
          && b.status == "completed") = some b →
        b.services.any (fun e => entryName e == req.service_name) = true →
        check_user_rating_exists_for_booking ratings req.booking_id
          req.service_name = true →
        rate_service_with_images catalog db ratings se sn req
          = (RateOutcome.alreadyRated, ratings))
    ∧ (∀ catalog db ratings se sn (req : RateRequest) rv b,
        req.user_name ≠ "" → req.service_name ≠ "" → req.booking_id ≠ "" →
        req.ratingStr ≠ "" → parse_int req.ratingStr = some rv →
        1 ≤ rv → rv ≤ 5 → eqIc req.user_name sn = true →
        db.find? (fun b => b.booking_id == req.booking_id && b.email == se
          && b.status == "completed") = some b →
        b.services.any (fun e => entryName e == req.service_name) = true →
        check_user_rating_exists_for_booking ratings req.booking_id
          req.service_name = false →
        5 < req.photos.length →
        rate_service_with_images catalog db ratings se sn req
          = (RateOutcome.tooManyPhotos, ratings)) := by
  refine ⟨?_, ?_, ?_, ?_, ?_⟩
  · intro catalog db ratings se sn req rs hsucc
    unfold rate_service_with_images at hsucc
    split at hsucc
    · exact absurd hsucc (by simp)
    · split at hsucc
      · exact absurd hsucc (by simp)
      · split at hsucc
        · exact absurd hsucc (by simp)
        · split at hsucc
          · exact absurd hsucc (by simp)
          · split at hsucc
            · exact absurd hsucc (by simp)
            · next b hfind =>
                split at hsucc
                · exact absurd hsucc (by simp)
                · next hin =>
                    split at hsucc
                    · exact absurd hsucc (by simp)
                    · split at hsucc
                      · exact absurd hsucc (by simp)
                      · split at hsucc
                        · refine List.any_eq_true.mpr
                            ⟨b, List.mem_of_find?_eq_some hfind, ?_⟩
                          have hp := List.find?_some hfind
                          have ha : b.services.any
                              (fun e => entryName e == req.service_name) = true := by
                            simpa using hin
                          simp only [Bool.and_eq_true] at hp ⊢
                          exact ⟨hp, ha⟩
                        · exact absurd hsucc (by simp)
  · intro catalog db ratings se sn req rv h1 h2 h3 h4 hparse hlo hhi hses hnone
    unfold rate_service_with_images
    rw [if_neg (by simp [h1, h2, h3, h4])]
    simp only [hparse, hnone]
    rw [if_neg (by simp [hlo, hhi]), if_neg (by simp [hses])]
  · intro catalog db ratings se sn req rv b h1 h2 h3 h4 hparse hlo hhi hses hfind hnotin
    unfold rate_service_with_images
    rw [if_neg (by simp [h1, h2, h3, h4])]
    simp only [hparse, hfind]
    rw [if_neg (by simp [hlo, hhi]), if_neg (by simp [hses]),
      if_pos (by simp [hnotin])]
  · intro catalog db ratings se sn req rv b h1 h2 h3 h4 hparse hlo hhi hses hfind
      hin hdup
    unfold rate_service_with_images
    rw [if_neg (by simp [h1, h2, h3, h4])]
    simp only [hparse, hfind]
    rw [if_neg (by simp [hlo, hhi]), if_neg (by simp [hses]),
      if_neg (by simp [hin]), if_pos hdup]
  · intro catalog db ratings se sn req rv b h1 h2 h3 h4 hparse hlo hhi hses hfind
      hin hdup hphotos
    unfold rate_service_with_images
    rw [if_neg (by simp [h1, h2, h3, h4])]
    simp only [hparse, hfind]
    rw [if_neg (by simp [hlo, hhi]), if_neg (by simp [hses]),
      if_neg (by simp [hin]), if_neg (by simp [hdup]), if_pos hphotos]

/-- Witness for `rating_submission_conditions_amended` on one completed
booking for "Greasing": a successful submission implies the conditions, a
missing booking id / foreign service / duplicate / sixth photo each hit
their respective rejection. -/
theorem rating_submission_conditions_amended_witness :
    ([mkBooking 1 "B1" "a@x" "Alice" "completed" [ServiceEntry.nameOnly "Greasing"] 0 0].any
        (fun b => b.booking_id == "B1" && b.email == "a@x" && b.status == "completed"
          && b.services.any (fun e => entryName e == "Greasing"))) = true
    ∧ rate_service_with_images []
        [mkBooking 1 "B1" "a@x" "Alice" "completed" [ServiceEntry.nameOnly "Greasing"] 0 0]
        [] "a@x" "Alice"
        { user_name := "Alice", service_name := "Greasing", booking_id := "B9",
          ratingStr := "4", comment := "", photos := [] }
      = (RateOutcome.noCompletedBooking, [])
    ∧ rate_service_with_images []
        [mkBooking 1 "B1" "a@x" "Alice" "completed" [ServiceEntry.nameOnly "Greasing"] 0 0]
        [] "a@x" "Alice"
        { user_name := "Alice", service_name := "Painting", booking_id := "B1",
          ratingStr := "4", comment := "", photos := [] }
      = (RateOutcome.serviceNotInBooking, [])
    ∧ rate_service_with_images []
        [mkBooking 1 "B1" "a@x" "Alice" "completed" [ServiceEntry.nameOnly "Greasing"] 0 0]
        [mkRating "B1" "Greasing" 4] "a@x" "Alice"
        { user_name := "Alice", service_name := "Greasing", booking_id := "B1",
          ratingStr := "4", comment := "", photos := [] }
      = (RateOutcome.alreadyRated, [mkRating "B1" "Greasing" 4])
    ∧ rate_service_with_images []
        [mkBooking 1 "B1" "a@x" "Alice" "completed" [ServiceEntry.nameOnly "Greasing"] 0 0]
        [] "a@x" "Alice"
        { user_name := "Alice", service_name := "Greasing", booking_id := "B1",
          ratingStr := "4", comment := "",
          photos := ["p1", "p2", "p3", "p4", "p5", "p6"] }
      = (RateOutcome.tooManyPhotos, []) :=
  ⟨rating_submission_conditions_amended.1 []
      [mkBooking 1 "B1" "a@x" "Alice" "completed" [ServiceEntry.nameOnly "Greasing"] 0 0]
      [] "a@x" "Alice"
      { user_name := "Alice", service_name := "Greasing", booking_id := "B1",
        ratingStr := "4", comment := "", photos := [] }
      (rate_service_with_images []
        [mkBooking 1 "B1" "a@x" "Alice" "completed" [ServiceEntry.nameOnly "Greasing"] 0 0]
        [] "a@x" "Alice"
        { user_name := "Alice", service_name := "Greasing", booking_id := "B1",
          ratingStr := "4", comment := "", photos := [] }).2
      (by decide),
   rating_submission_conditions_amended.2.1 []
      [mkBooking 1 "B1" "a@x" "Alice" "completed" [ServiceEntry.nameOnly "Greasing"] 0 0]
      [] "a@x" "Alice"
      { user_name := "Alice", service_name := "Greasing", booking_id := "B9",
        ratingStr := "4", comment := "", photos := [] } 4
      (by decide) (by decide) (by decide) (by decide) (by decide) (by decide)
      (by decide) (by decide) (by decide),
   rating_submission_conditions_amended.2.2.1 []
      [mkBooking 1 "B1" "a@x" "Alice" "completed" [ServiceEntry.nameOnly "Greasing"] 0 0]
      [] "a@x" "Alice"
      { user_name := "Alice", service_name := "Painting", booking_id := "B1",
        ratingStr := "4", comment := "", photos := [] } 4
      (mkBooking 1 "B1" "a@x" "Alice" "completed" [ServiceEntry.nameOnly "Greasing"] 0 0)
      (by decide) (by decide) (by decide) (by decide) (by decide) (by decide)
      (by decide) (by decide) (by decide) (by decide),
   rating_submission_conditions_amended.2.2.2.1 []
      [mkBooking 1 "B1" "a@x" "Alice" "completed" [ServiceEntry.nameOnly "Greasing"] 0 0]
      [mkRating "B1" "Greasing" 4] "a@x" "Alice"
      { user_name := "Alice", service_name := "Greasing", booking_id := "B1",
        ratingStr := "4", comment := "", photos := [] } 4
      (mkBooking 1 "B1" "a@x" "Alice" "completed" [ServiceEntry.nameOnly "Greasing"] 0 0)
      (by decide) (by decide) (by decide) (by decide) (by decide) (by decide)
      (by decide) (by decide) (by decide) (by decide) (by decide),
   rating_submission_conditions_amended.2.2.2.2 []
      [mkBooking 1 "B1" "a@x" "Alice" "completed" [ServiceEntry.nameOnly "Greasing"] 0 0]
      [] "a@x" "Alice"
      { user_name := "Alice", service_name := "Greasing", booking_id := "B1",
        ratingStr := "4", comment := "",
        photos := ["p1", "p2", "p3", "p4", "p5", "p6"] } 4
      (mkBooking 1 "B1" "a@x" "Alice" "completed" [ServiceEntry.nameOnly "Greasing"] 0 0)
      (by decide) (by decide) (by decide) (by decide) (by decide) (by decide)
      (by decide) (by decide) (by decide) (by decide) (by decide) (by decide)⟩

end TyreWorks
